import Mathlib

/-!
Verification of the streaming chat-completion notebook
(`cookbooks/python/openai/How_to_stream_completions.ipynb`).

The development shallowly embeds the two pieces of behaviour of the
repository: the client-configuration step of cell-1 (credential check and
environment injection) and the stream-consumer loop of cell-10 (accumulating
chunk deltas, timing each chunk, joining the content fields at the end).
Wall-clock readings are modelled as a function from the read index to the
elapsed time (a rational); the transport is modelled as the finite list of
chunks it delivers, together with a flag saying whether it raises a transport
error after delivering them.
-/

namespace StreamCompletions

/-- A streamed `delta` record: optional partial role and/or content
(cell-8: `delta` can hold a role token, a content token, or nothing). -/
structure Delta where
  role : Option String
  content : Option String
  deriving DecidableEq, Repr

/-- One element of a chunk's `choices` list; the consumer reads its `delta`. -/
structure Choice where
  delta : Delta
  deriving DecidableEq, Repr

/-- One streamed response fragment (`chunk` in cell-10). -/
structure Chunk where
  choices : List Choice
  deriving DecidableEq, Repr

/-- A message role, per the spec's role enum. -/
inductive Role where
  | user
  | assistant
  | system
  deriving DecidableEq, Repr

/-- One entry of the request's ordered message list. -/
structure ChatMessage where
  role : Role
  content : String
  deriving DecidableEq, Repr

/-- The outbound request shape: model identifier, messages, temperature,
streaming flag. -/
structure Request where
  model : String
  messages : List ChatMessage
  temperature : ℚ
  stream : Bool
  deriving DecidableEq, Repr

/-- Token-usage counters of a non-streaming response. -/
structure Usage where
  promptTokens : Nat
  completionTokens : Nat
  totalTokens : Nat
  deriving DecidableEq, Repr

/-- One candidate of a non-streaming response (role and content, as read in
cell-5 via `response.choices[0].message`). -/
structure Candidate where
  role : Role
  content : String
  deriving DecidableEq, Repr

/-- The inbound non-streaming response shape: candidate list plus usage. -/
structure Response where
  choices : List Candidate
  usage : Usage
  deriving DecidableEq, Repr

/-- The content of the first candidate of a non-streaming response
(`response.choices[0].message.content` in cell-5). -/
def responseContent (r : Response) : Option String :=
  (r.choices[0]?).map Candidate.content

/-- The two ways the cell-10 loop can fail: the transport raising during a
pull, or the unguarded `chunk.choices[0]` access failing on an empty
`choices` list. -/
inductive ConsumeError where
  | transportError
  | indexError
  deriving DecidableEq, Repr

/-- What a run of the cell-10 loop leaves behind: the timed chunk log
(`chunk_time` paired with each appended element of `collected_chunks`), the
collected `delta` messages (`collected_messages`), and the error that aborted
the loop, if any. -/
structure ConsumeResult where
  log : List (ℚ × Chunk)
  messages : List Delta
  error : Option ConsumeError
  deriving DecidableEq, Repr

/-- The body of the cell-10 `for chunk in response` loop.  For each delivered
chunk, in source order: read the clock (`chunk_time = time.time() - start_time`),
append the chunk to the log (`collected_chunks.append(chunk)`), extract
`chunk.choices[0].delta` — aborting with an index error when `choices` is
empty — and append the delta (`collected_messages.append(chunk_message)`).
When the delivered chunks are exhausted the transport either closes the
stream or raises a transport error. -/
def consumeLoop (clock : ℕ → ℚ) (raises : Bool) :
    List Chunk → ℕ → List (ℚ × Chunk) → List Delta → ConsumeResult
  | [], _, log, msgs =>
      if raises then ⟨log, msgs, some ConsumeError.transportError⟩
      else ⟨log, msgs, none⟩
  | chunk :: rest, i, log, msgs =>
      let chunkTime := clock i
      match chunk.choices with
      | [] => ⟨log ++ [(chunkTime, chunk)], msgs, some ConsumeError.indexError⟩
      | choice :: _ =>
          consumeLoop clock raises rest (i + 1)
            (log ++ [(chunkTime, chunk)]) (msgs ++ [choice.delta])

/-- The cell-10 stream consumer: run the loop from empty accumulators over
the chunks the transport delivers. -/
def consume (clock : ℕ → ℚ) (chunks : List Chunk) (raises : Bool) : ConsumeResult :=
  consumeLoop clock raises chunks 0 [] []

/-- `full_reply_content = ''.join([m.content or '' for m in collected_messages])`. -/
def fullReplyContent (msgs : List Delta) : String :=
  String.join (msgs.map fun m => m.content.getD "")

/-- The accumulated text of a run: the joined contents when the loop finished
normally, nothing when it aborted (the `full_reply_content` line of cell-10 is
only reached after the loop completes without an exception). -/
def consumeFullText (r : ConsumeResult) : Option String :=
  match r.error with
  | none => some (fullReplyContent r.messages)
  | some _ => none

/-- The content the consumer reads off a fragment: the `delta.content` of its
first choice, when one exists. -/
def chunkContent (c : Chunk) : Option String :=
  match c.choices with
  | [] => none
  | choice :: _ => choice.delta.content

/-- Reference description of the chunks that make it into the log: every
delivered chunk up to and including the first one whose `choices` list is
empty (that chunk is still appended before the failing access). -/
def loggedChunks : List Chunk → List Chunk
  | [] => []
  | c :: rest =>
      match c.choices with
      | [] => [c]
      | _ :: _ => c :: loggedChunks rest

/-- Reference description of the collected messages: the first-choice deltas
of the delivered chunks, stopping before the first chunk with an empty
`choices` list. -/
def collectedDeltas : List Chunk → List Delta
  | [] => []
  | c :: rest =>
      match c.choices with
      | [] => []
      | choice :: _ => choice.delta :: collectedDeltas rest

/-- Reference description of how a run ends: an index error at the first
chunk with empty `choices`, otherwise a transport error exactly when the
transport raises after its deliveries. -/
def loopError (raises : Bool) : List Chunk → Option ConsumeError
  | [] => if raises then some ConsumeError.transportError else none
  | c :: rest =>
      match c.choices with
      | [] => some ConsumeError.indexError
      | _ :: _ => loopError raises rest

/-- Pair each chunk of a list with the clock reading at its index, the first
one being read at index `i`. -/
def pairTimes (clock : ℕ → ℚ) (i : ℕ) : List Chunk → List (ℚ × Chunk)
  | [] => []
  | c :: rest => (clock i, c) :: pairTimes clock (i + 1) rest

/-! ## Client configuration (cell-1)

The process-wide environment is modelled as a function from variable names to
optional values.  Cell-1 reads `GITHUB_TOKEN` with a Python falsy check
(`if not os.getenv("GITHUB_TOKEN")`), which fails both when the variable is
unset and when it holds the empty string, and otherwise injects
`OPENAI_API_KEY` and `OPENAI_BASE_URL`. -/

/-- The configuration error of cell-1 (`ValueError("GITHUB_TOKEN is not set")`;
the spec's `ConfigurationError`). -/
inductive ConfigError where
  | missingCredential
  deriving DecidableEq, Repr

/-- Cell-1: check `GITHUB_TOKEN` (None and the empty string are both falsy),
then set `OPENAI_API_KEY` to its value and `OPENAI_BASE_URL` to the fixed
endpoint, leaving every other variable as it was. -/
def configure (env : String → Option String) :
    Except ConfigError (String → Option String) :=
  match env "GITHUB_TOKEN" with
  | none => Except.error ConfigError.missingCredential
  | some tok =>
      if tok = "" then Except.error ConfigError.missingCredential
      else
        Except.ok fun k =>
          if k = "OPENAI_API_KEY" then some tok
          else if k = "OPENAI_BASE_URL" then some "https://models.github.ai/inference"
          else env k

/-- The notebook's top-level order: cell-1 configures the client before any
later cell runs, so when cell-1 raises, none of the chat-completion requests
of the later cells is issued to the transport. -/
def issuedRequests (env : String → Option String) (later : List Request) :
    List Request :=
  match configure env with
  | Except.error _ => []
  | Except.ok _ => later

/-! ## The external inference service

The service behind `client.chat.completions.create` is not part of the
repository sources; only its callers are.  It is modelled from the spec:
a deterministic completion per request (temperature held at 0) and a
fragmentation of that completion into streamed chunks whose contents
concatenate back to the non-streaming candidate's content. -/

/-- Modelled from the spec: the external chat-completion inference service,
which is missing from the sources (only its call sites appear).  Per the
spec's data-model invariant, at a deterministic temperature the streamed
fragments of a request reconstruct the content the non-streaming response
would have returned for an equivalent request, and every streamed fragment is
well-formed (carries a first choice). -/
structure Service where
  complete : Request → Response
  streamChunks : Request → List Chunk
  wellFormed : ∀ req : Request, ∀ c ∈ streamChunks req, c.choices ≠ []
  deterministicReconstruction : ∀ req : Request, req.temperature = 0 →
    responseContent (complete {req with stream := false}) =
      some (String.join
        ((streamChunks {req with stream := true}).map
          fun c => (chunkContent c).getD ""))

/-! ## Concrete scenario data -/

/-- The fragment `{role: "assistant"}` of the spec's scenario. -/
def roleChunk : Chunk := ⟨[⟨⟨some "assistant", none⟩⟩]⟩

/-- The fragment `{content: "Two"}` of the spec's scenario. -/
def contentChunk : Chunk := ⟨[⟨⟨none, some "Two"⟩⟩]⟩

/-- The final empty fragment `{}` of the spec's scenario. -/
def emptyDeltaChunk : Chunk := ⟨[⟨⟨none, none⟩⟩]⟩

/-- The scenario request `{model: "m", messages: [{role: user, content:
"1+1?"}], temperature: 0, stream: true}`. -/
def scenarioRequest : Request := ⟨"m", [⟨Role.user, "1+1?"⟩], 0, true⟩

/-- The three fragments the scenario's stub transport yields. -/
def scenarioChunks : List Chunk := [roleChunk, contentChunk, emptyDeltaChunk]

/-- A chunk whose `choices` list is empty, outside the guarded domain of the
`chunk.choices[0]` access. -/
def emptyChoicesChunk : Chunk := ⟨[]⟩

/-- A constant clock, used to instantiate theorems at concrete inputs. -/
def zeroClock : ℕ → ℚ := fun _ => 0

/-- An environment holding only a non-empty `GITHUB_TOKEN`. -/
def tokenOnlyEnv : String → Option String :=
  fun k => if k = "GITHUB_TOKEN" then some "ghp-token" else none

/-- The empty environment: every variable unset. -/
def emptyEnv : String → Option String := fun _ => none

/-- An environment whose `GITHUB_TOKEN` is set to the empty string. -/
def emptyTokenEnv : String → Option String :=
  fun k => if k = "GITHUB_TOKEN" then some "" else none

/-- The environment cell-1 produces when started from `tokenOnlyEnv`. -/
def configuredEnv : String → Option String :=
  fun k =>
    if k = "OPENAI_API_KEY" then some "ghp-token"
    else if k = "OPENAI_BASE_URL" then some "https://models.github.ai/inference"
    else tokenOnlyEnv k

/-- A stub service used to instantiate theorems at a concrete input: it
always answers "Two" and streams the scenario fragments. -/
def stubService : Service where
  complete := fun _ => ⟨[⟨Role.assistant, "Two"⟩], ⟨10, 1, 11⟩⟩
  streamChunks := fun _ => scenarioChunks
  wellFormed := by
    intro req c hc
    simp only [scenarioChunks, List.mem_cons, List.not_mem_nil, or_false] at hc
    rcases hc with h | h | h <;> subst h <;> decide
  deterministicReconstruction := by
    intro req h
    rfl

/-! ## Structural lemmas about the consumer -/

theorem consumeLoop_eq (clock : ℕ → ℚ) (raises : Bool) (cs : List Chunk)
    (i : ℕ) (log : List (ℚ × Chunk)) (msgs : List Delta) :
    consumeLoop clock raises cs i log msgs =
      ⟨log ++ pairTimes clock i (loggedChunks cs),
       msgs ++ collectedDeltas cs,
       loopError raises cs⟩ := by
  induction cs generalizing i log msgs with
  | nil =>
      cases raises <;> simp [consumeLoop, loggedChunks, collectedDeltas, loopError, pairTimes]
  | cons c rest ih =>
      cases hc : c.choices with
      | nil =>
          simp [consumeLoop, loggedChunks, collectedDeltas, loopError, pairTimes, hc]
      | cons choice tail =>
          simp [consumeLoop, loggedChunks, collectedDeltas, loopError, pairTimes, hc, ih]

theorem consume_eq (clock : ℕ → ℚ) (chunks : List Chunk) (raises : Bool) :
    consume clock chunks raises =
      ⟨pairTimes clock 0 (loggedChunks chunks),
       collectedDeltas chunks,
       loopError raises chunks⟩ := by
  simpa using consumeLoop_eq clock raises chunks 0 [] []

theorem loggedChunks_of_wf (cs : List Chunk) (h : ∀ c ∈ cs, c.choices ≠ []) :
    loggedChunks cs = cs := by
  induction cs with
  | nil => rfl
  | cons c rest ih =>
      cases hc : c.choices with
      | nil => exact absurd hc (h c (List.mem_cons_self c rest))
      | cons choice tail =>
          simp only [loggedChunks, hc]
          exact congrArg (c :: ·) (ih fun x hx => h x (List.mem_cons_of_mem c hx))

theorem loopError_of_wf (raises : Bool) (cs : List Chunk)
    (h : ∀ c ∈ cs, c.choices ≠ []) :
    loopError raises cs = if raises then some ConsumeError.transportError else none := by
  induction cs with
  | nil => rfl
  | cons c rest ih =>
      cases hc : c.choices with
      | nil => exact absurd hc (h c (List.mem_cons_self c rest))
      | cons choice tail =>
          simp only [loopError, hc]
          exact ih fun x hx => h x (List.mem_cons_of_mem c hx)

theorem joinConsAux (a : String) (l : List String) :
    String.join (a :: l) = a ++ String.join l := by
  simp [String.join_eq, String.ext_iff]

theorem fullReplyContent_collectedDeltas (cs : List Chunk)
    (h : ∀ c ∈ cs, c.choices ≠ []) :
    fullReplyContent (collectedDeltas cs) =
      String.join (cs.map fun c => (chunkContent c).getD "") := by
  induction cs with
  | nil => rfl
  | cons c rest ih =>
      cases hc : c.choices with
      | nil => exact absurd hc (h c (List.mem_cons_self c rest))
      | cons choice tail =>
          have ih' := ih fun x hx => h x (List.mem_cons_of_mem c hx)
          simp only [collectedDeltas, hc, List.map_cons, fullReplyContent] at ih' ⊢
          rw [joinConsAux, joinConsAux, ih']
          simp [chunkContent, hc]

theorem pairTimes_getElem? (clock : ℕ → ℚ) (s : ℕ) (l : List Chunk) (i : ℕ) :
    (pairTimes clock s l)[i]? = (l[i]?).map fun c => (clock (s + i), c) := by
  induction l generalizing s i with
  | nil => simp [pairTimes]
  | cons c rest ih =>
      cases i with
      | zero => simp [pairTimes]
      | succ j =>
          simp only [pairTimes, List.getElem?_cons_succ]
          rw [ih (s + 1) j]
          simp [Nat.add_assoc, Nat.add_comm 1 j]

theorem loggedChunks_getElem? (cs : List Chunk) (i : ℕ) (c : Chunk)
    (h : (loggedChunks cs)[i]? = some c) : cs[i]? = some c := by
  induction cs generalizing i with
  | nil => simp [loggedChunks] at h
  | cons d rest ih =>
      cases hd : d.choices with
      | nil =>
          rw [loggedChunks, hd] at h
          cases i with
          | zero => simpa using h
          | succ j => simp at h
      | cons choice tail =>
          rw [loggedChunks, hd] at h
          cases i with
          | zero => simpa using h
          | succ j =>
              simp only [List.getElem?_cons_succ] at h ⊢
              exact ih j h

theorem pairTimes_length (clock : ℕ → ℚ) (s : ℕ) (l : List Chunk) :
    (pairTimes clock s l).length = l.length := by
  induction l generalizing s with
  | nil => rfl
  | cons c rest ih => simp [pairTimes, ih]

/-- Shared description of a well-formed, error-free run: the log pairs every
delivered chunk with its clock reading, the messages are the first-choice
deltas, and the run finishes without error. -/
theorem consume_of_wf (clock : ℕ → ℚ) (chunks : List Chunk)
    (h : ∀ c ∈ chunks, c.choices ≠ []) :
    consume clock chunks false =
      ⟨pairTimes clock 0 chunks, collectedDeltas chunks, none⟩ := by
  rw [consume_eq, loggedChunks_of_wf chunks h, loopError_of_wf false chunks h]
  simp

/-- The full accumulated text of a well-formed, error-free run is the joined
content of the delivered chunks. -/
theorem consumeFullText_of_wf (clock : ℕ → ℚ) (chunks : List Chunk)
    (h : ∀ c ∈ chunks, c.choices ≠ []) :
    consumeFullText (consume clock chunks false) =
      some (String.join (chunks.map fun c => (chunkContent c).getD "")) := by
  rw [consume_of_wf clock chunks h]
  simp [consumeFullText, fullReplyContent_collectedDeltas chunks h]

/-- How a run ends when a chunk with empty `choices` sits after a well-formed
portion: index error, the log covering the well-formed portion plus the
offending chunk, the messages covering only the well-formed portion. -/
theorem run_at_bad_chunk (raises : Bool) (good : List Chunk) (bad : Chunk)
    (rest : List Chunk) (hb : bad.choices = [])
    (hg : ∀ c ∈ good, c.choices ≠ []) :
    loggedChunks (good ++ bad :: rest) = good ++ [bad] ∧
    collectedDeltas (good ++ bad :: rest) = collectedDeltas good ∧
    loopError raises (good ++ bad :: rest) = some ConsumeError.indexError := by
  induction good with
  | nil => simp [loggedChunks, collectedDeltas, loopError, hb]
  | cons c g ih =>
      have hc := hg c (List.mem_cons_self c g)
      obtain ⟨ch, t, hcc⟩ := List.exists_cons_of_ne_nil hc
      obtain ⟨h1, h2, h3⟩ := ih fun x hx => hg x (List.mem_cons_of_mem c hx)
      simp [loggedChunks, collectedDeltas, loopError, hcc, h1, h2, h3]

/-! ## The claims -/

/-- C1: for every sequence of well-formed fragments delivered by the stream,
`consume` finishes without error, its full text is the concatenation in
arrival order of the content fields of the fragments (a fragment whose
content is absent or empty contributing nothing), and its log is the ordered
list of (elapsed_time, fragment) pairs, one entry per fragment received. -/
theorem c1_consume_accumulates (clock : ℕ → ℚ) (chunks : List Chunk)
    (h : ∀ c ∈ chunks, c.choices ≠ []) :
    (consume clock chunks false).error = none ∧
    consumeFullText (consume clock chunks false) =
      some (String.join (chunks.map fun c => (chunkContent c).getD "")) ∧
    (consume clock chunks false).log = pairTimes clock 0 chunks := by
  refine ⟨?_, consumeFullText_of_wf clock chunks h, ?_⟩ <;>
    rw [consume_of_wf clock chunks h]

/-- C1 witness: the scenario fragments under the constant clock. -/
theorem c1_consume_accumulates_witness :
    (∀ c ∈ scenarioChunks, c.choices ≠ []) ∧
    ((consume zeroClock scenarioChunks false).error = none ∧
     consumeFullText (consume zeroClock scenarioChunks false) =
       some (String.join (scenarioChunks.map fun c => (chunkContent c).getD "")) ∧
     (consume zeroClock scenarioChunks false).log =
       pairTimes zeroClock 0 scenarioChunks) :=
  ⟨by decide, c1_consume_accumulates zeroClock scenarioChunks (by decide)⟩

/-- C2: for any service satisfying the spec's determinism invariant and any
request at temperature 0, the text `consume` accumulates from the equivalent
streaming request equals the content of the first candidate of the
non-streaming response. -/
theorem c2_stream_refines_blocking (S : Service) (clock : ℕ → ℚ)
    (req : Request) (h : req.temperature = 0) :
    consumeFullText
        (consume clock (S.streamChunks {req with stream := true}) false) =
      responseContent (S.complete {req with stream := false}) := by
  rw [consumeFullText_of_wf clock _ (S.wellFormed _),
    S.deterministicReconstruction req h]

/-- C2 witness: the stub service at the scenario request. -/
theorem c2_stream_refines_blocking_witness :
    scenarioRequest.temperature = 0 ∧
    consumeFullText
        (consume zeroClock
          (stubService.streamChunks {scenarioRequest with stream := true}) false) =
      responseContent (stubService.complete {scenarioRequest with stream := false}) :=
  ⟨rfl, c2_stream_refines_blocking stubService zeroClock scenarioRequest rfl⟩

/-- C3: when `GITHUB_TOKEN` is unset, the configuration step raises the
configuration error and no request is ever issued to the transport. -/
theorem c3_missing_credential_no_request (env : String → Option String)
    (h : env "GITHUB_TOKEN" = none) :
    configure env = Except.error ConfigError.missingCredential ∧
    ∀ later : List Request, issuedRequests env later = [] := by
  have hc : configure env = Except.error ConfigError.missingCredential := by
    unfold configure
    rw [h]
  exact ⟨hc, fun later => by unfold issuedRequests; rw [hc]⟩

/-- C3 witness: the empty environment. -/
theorem c3_missing_credential_no_request_witness :
    emptyEnv "GITHUB_TOKEN" = none ∧
    configure emptyEnv = Except.error ConfigError.missingCredential ∧
    issuedRequests emptyEnv [scenarioRequest] = [] :=
  ⟨rfl, (c3_missing_credential_no_request emptyEnv rfl).1,
    (c3_missing_credential_no_request emptyEnv rfl).2 [scenarioRequest]⟩

/-- C4: for every run of `consume`, the i-th log entry holds the i-th
fragment pulled from the stream together with the i-th clock reading, and —
assuming the wall clock is non-decreasing across successive reads — the
recorded elapsed-time sequence is non-decreasing. -/
theorem c4_log_order_and_times (clock : ℕ → ℚ)
    (hmono : ∀ i j : ℕ, i ≤ j → clock i ≤ clock j)
    (chunks : List Chunk) (raises : Bool) :
    (∀ (i : ℕ) (t : ℚ) (c : Chunk),
        (consume clock chunks raises).log[i]? = some (t, c) →
        chunks[i]? = some c ∧ t = clock i) ∧
    (∀ (i j : ℕ) (ti : ℚ) (ci : Chunk) (tj : ℚ) (cj : Chunk), i ≤ j →
        (consume clock chunks raises).log[i]? = some (ti, ci) →
        (consume clock chunks raises).log[j]? = some (tj, cj) → ti ≤ tj) := by
  have hlog : (consume clock chunks raises).log =
      pairTimes clock 0 (loggedChunks chunks) := by
    rw [consume_eq]
  have key : ∀ (i : ℕ) (t : ℚ) (c : Chunk),
      (consume clock chunks raises).log[i]? = some (t, c) →
      chunks[i]? = some c ∧ t = clock i := by
    intro i t c hi
    rw [hlog, pairTimes_getElem?] at hi
    cases hl : (loggedChunks chunks)[i]? with
    | none => rw [hl] at hi; simp at hi
    | some d =>
        rw [hl] at hi
        have hi2 : (clock (0 + i), d) = (t, c) := by simpa using hi
        have ht : clock (0 + i) = t := congrArg Prod.fst hi2
        have hd : d = c := congrArg Prod.snd hi2
        refine ⟨?_, by rw [← ht, Nat.zero_add]⟩
        rw [← hd]
        exact loggedChunks_getElem? chunks i d hl
  refine ⟨key, fun i j ti ci tj cj hij hi hj => ?_⟩
  obtain ⟨-, hti⟩ := key i ti ci hi
  obtain ⟨-, htj⟩ := key j tj cj hj
  rw [hti, htj]
  exact hmono i j hij

/-- C4 witness: the scenario fragments under the constant clock. -/
theorem c4_log_order_and_times_witness :
    (∀ (i : ℕ) (t : ℚ) (c : Chunk),
        (consume zeroClock scenarioChunks false).log[i]? = some (t, c) →
        scenarioChunks[i]? = some c ∧ t = zeroClock i) ∧
    (∀ (i j : ℕ) (ti : ℚ) (ci : Chunk) (tj : ℚ) (cj : Chunk), i ≤ j →
        (consume zeroClock scenarioChunks false).log[i]? = some (ti, ci) →
        (consume zeroClock scenarioChunks false).log[j]? = some (tj, cj) → ti ≤ tj) :=
  c4_log_order_and_times zeroClock (fun _ _ _ => le_refl 0) scenarioChunks false

/-- C5: when the transport raises after delivering exactly two well-formed
fragments, `consume` surfaces the transport error unmodified — there is no
recovery or retry in the loop — and the log holds exactly the two entries of
the successfully received fragments. -/
theorem c5_transport_error_after_two (clock : ℕ → ℚ) (c1 c2 : Chunk)
    (h1 : c1.choices ≠ []) (h2 : c2.choices ≠ []) :
    (consume clock [c1, c2] true).error = some ConsumeError.transportError ∧
    (consume clock [c1, c2] true).log = [(clock 0, c1), (clock 1, c2)] ∧
    (consume clock [c1, c2] true).log.length = 2 := by
  obtain ⟨ch1, t1, hc1⟩ := List.exists_cons_of_ne_nil h1
  obtain ⟨ch2, t2, hc2⟩ := List.exists_cons_of_ne_nil h2
  simp [consume, consumeLoop, hc1, hc2]

/-- C5 witness: the first two scenario fragments. -/
theorem c5_transport_error_after_two_witness :
    (roleChunk.choices ≠ [] ∧ contentChunk.choices ≠ []) ∧
    ((consume zeroClock [roleChunk, contentChunk] true).error =
        some ConsumeError.transportError ∧
     (consume zeroClock [roleChunk, contentChunk] true).log =
        [(zeroClock 0, roleChunk), (zeroClock 1, contentChunk)] ∧
     (consume zeroClock [roleChunk, contentChunk] true).log.length = 2) :=
  ⟨⟨by decide, by decide⟩,
    c5_transport_error_after_two zeroClock roleChunk contentChunk
      (by decide) (by decide)⟩

/-- C6: for the scenario request (streaming flag set) against a stub
transport yielding `[{role: assistant}, {content: "Two"}, {}]`, `consume`
returns full text "Two" and a log with exactly three entries, whatever the
clock readings are. -/
theorem c6_scenario_two (clock : ℕ → ℚ) :
    scenarioRequest.stream = true ∧
    consumeFullText (consume clock scenarioChunks false) = some "Two" ∧
    (consume clock scenarioChunks false).log.length = 3 := by
  refine ⟨rfl, ?_, ?_⟩
  · rw [consumeFullText_of_wf clock scenarioChunks (by decide)]
    decide
  · rw [consume_of_wf clock scenarioChunks (by decide)]
    simp [pairTimes_length, scenarioChunks]

/-- C7: two runs of `consume` over identical fragment sequences, under
possibly different clocks, produce the same full text, logs of the same
length, and position-by-position equal fragment components of the log
entries. -/
theorem c7_consume_deterministic (clock1 clock2 : ℕ → ℚ)
    (chunks : List Chunk) (raises : Bool) :
    consumeFullText (consume clock1 chunks raises) =
      consumeFullText (consume clock2 chunks raises) ∧
    (consume clock1 chunks raises).log.length =
      (consume clock2 chunks raises).log.length ∧
    ∀ i : ℕ, ((consume clock1 chunks raises).log[i]?).map Prod.snd =
         ((consume clock2 chunks raises).log[i]?).map Prod.snd := by
  rw [consume_eq clock1, consume_eq clock2]
  refine ⟨rfl, by simp [pairTimes_length], fun i => ?_⟩
  rw [pairTimes_getElem?, pairTimes_getElem?]
  cases (loggedChunks chunks)[i]? <;> simp

/-- C8: on success, the configuration step sets the API-key variable to the
credential's value verbatim, sets the base-URL variable to the fixed
endpoint, and leaves every other environment entry unchanged. -/
theorem c8_configure_frame (env env' : String → Option String)
    (h : configure env = Except.ok env') :
    env' "OPENAI_API_KEY" = env "GITHUB_TOKEN" ∧
    env' "OPENAI_BASE_URL" = some "https://models.github.ai/inference" ∧
    ∀ k, k ≠ "OPENAI_API_KEY" → k ≠ "OPENAI_BASE_URL" → env' k = env k := by
  unfold configure at h
  split at h
  next htok => exact absurd h (by simp)
  next tok htok =>
    split at h
    next => exact absurd h (by simp)
    next hne =>
      have henv := Except.ok.inj h
      refine ⟨?_, ?_, ?_⟩
      · rw [← henv, htok]
        simp
      · rw [← henv]
        simp
      · intro k hk1 hk2
        rw [← henv]
        simp only [if_neg hk1, if_neg hk2]

/-- C8 witness: configuring the environment that holds only the credential. -/
theorem c8_configure_frame_witness :
    configure tokenOnlyEnv = Except.ok configuredEnv ∧
    configuredEnv "OPENAI_API_KEY" = tokenOnlyEnv "GITHUB_TOKEN" ∧
    configuredEnv "OPENAI_BASE_URL" = some "https://models.github.ai/inference" ∧
    configuredEnv "PATH" = tokenOnlyEnv "PATH" :=
  ⟨rfl, (c8_configure_frame tokenOnlyEnv configuredEnv rfl).1,
    (c8_configure_frame tokenOnlyEnv configuredEnv rfl).2.1,
    (c8_configure_frame tokenOnlyEnv configuredEnv rfl).2.2 "PATH"
      (by decide) (by decide)⟩

/-- C9: a credential set to the empty string is treated like an unset one:
the configuration check fails with the configuration error, and the outcome
coincides with that of any environment where the credential is absent. -/
theorem c9_empty_credential_like_unset (env : String → Option String)
    (h : env "GITHUB_TOKEN" = some "") :
    configure env = Except.error ConfigError.missingCredential ∧
    ∀ env2 : String → Option String, env2 "GITHUB_TOKEN" = none →
      configure env = configure env2 := by
  have hc : configure env = Except.error ConfigError.missingCredential := by
    simp [configure, h]
  refine ⟨hc, fun env2 h2 => ?_⟩
  have hc2 : configure env2 = Except.error ConfigError.missingCredential := by
    simp [configure, h2]
  rw [hc, hc2]

/-- C9 witness: the environment whose credential is the empty string. -/
theorem c9_empty_credential_like_unset_witness :
    emptyTokenEnv "GITHUB_TOKEN" = some "" ∧
    configure emptyTokenEnv = Except.error ConfigError.missingCredential ∧
    configure emptyTokenEnv = configure emptyEnv :=
  ⟨rfl, (c9_empty_credential_like_unset emptyTokenEnv rfl).1,
    (c9_empty_credential_like_unset emptyTokenEnv rfl).2 emptyEnv rfl⟩

/-- C10 counterexample: delivering a single fragment with an empty `choices`
list, the run aborts with an index error — not a transport error — yet the
log does contain the (elapsed_time, fragment) entry for that fragment,
because cell-10 appends the chunk to `collected_chunks` before the failing
`chunk.choices[0]` access; the claim that the abort produces no log entry is
false. -/
theorem c10_counterexample :
    (consume zeroClock [emptyChoicesChunk] false).error =
        some ConsumeError.indexError ∧
    (consume zeroClock [emptyChoicesChunk] false).log =
        [(0, emptyChoicesChunk)] ∧
    (consume zeroClock [emptyChoicesChunk] false).messages = [] := by
  decide

/-- C10 amended: the unguarded `chunk.choices[0]` access never fails when
every delivered fragment carries a non-empty `choices` list; a fragment with
an empty `choices` list aborts the loop with an index error rather than a
transport error, after that fragment's (elapsed_time, fragment) entry has
already been appended to the log and without producing a message entry. -/
theorem c10_first_choice_access (clock : ℕ → ℚ) :
    (∀ chunks raises, (∀ c ∈ chunks, (c : Chunk).choices ≠ []) →
        (consume clock chunks raises).error ≠ some ConsumeError.indexError) ∧
    (∀ good bad rest raises, Chunk.choices bad = [] →
        (∀ c ∈ good, (c : Chunk).choices ≠ []) →
        (consume clock (good ++ bad :: rest) raises).error =
            some ConsumeError.indexError ∧
        (consume clock (good ++ bad :: rest) raises).log =
            pairTimes clock 0 (good ++ [bad]) ∧
        (consume clock (good ++ bad :: rest) raises).messages =
            collectedDeltas good) := by
  constructor
  · intro chunks raises h
    rw [consume_eq]
    simp only [loopError_of_wf raises chunks h]
    cases raises <;> simp
  · intro good bad rest raises hb hg
    obtain ⟨h1, h2, h3⟩ := run_at_bad_chunk raises good bad rest hb hg
    rw [consume_eq, h1, h2, h3]
    exact ⟨rfl, rfl, rfl⟩

/-- C10 witness: both halves at concrete inputs — the scenario fragments are
inside the guarded domain; one well-formed fragment followed by an
empty-`choices` fragment exercises the abort. -/
theorem c10_first_choice_access_witness :
    ((consume zeroClock scenarioChunks false).error ≠
        some ConsumeError.indexError) ∧
    ((consume zeroClock ([roleChunk] ++ emptyChoicesChunk :: []) false).error =
        some ConsumeError.indexError ∧
     (consume zeroClock ([roleChunk] ++ emptyChoicesChunk :: []) false).log =
        pairTimes zeroClock 0 ([roleChunk] ++ [emptyChoicesChunk]) ∧
     (consume zeroClock ([roleChunk] ++ emptyChoicesChunk :: []) false).messages =
        collectedDeltas [roleChunk]) :=
  ⟨(c10_first_choice_access zeroClock).1 scenarioChunks false (by decide),
    (c10_first_choice_access zeroClock).2 [roleChunk] emptyChoicesChunk [] false
      rfl (by decide)⟩

end StreamCompletions
